import Mathlib

/-!
Shallow embedding of the image upload service (NestJS `UploadService`, the
options-aware variant of `src/upload/upload.service.ts`) together with proofs
of the specification claims.  External collaborators (the `sharp` image
library and the Cloudinary client) are modelled as an explicit environment of
functions; machine-level concerns (streams) are modelled by their observable
results.  Asynchronous fan-out (`Promise.all`) is modelled by a deterministic
fan-in that propagates the first listed failure.
-/

namespace ImageUpload

/-- A raw byte buffer (`Buffer` in node), modelled as a list of byte values. -/
abbrev Buffer := List Nat

/-- The fields of an `Express.Multer.File` that the service reads. -/
structure MulterFile where
  originalname : String
  mimetype : String
  size : Nat
  buffer : Buffer
deriving DecidableEq

/-- A target box for resizing (entries of the service's `sizes` record). -/
structure Dimensions where
  width : Nat
  height : Nat
deriving DecidableEq

/-- The result of `sharp(buffer).metadata()`: width, height and format may be
absent on exotic inputs, as in the TypeScript `sharp.Metadata` type. -/
structure SharpMetadata where
  width : Option Nat
  height : Option Nat
  format : Option String
deriving DecidableEq

/-- The part of the Cloudinary `UploadApiResponse` the service reads. -/
structure CloudinaryResult where
  secure_url : String
deriving DecidableEq

/-- `UploadOptions` from `upload-options.interface.ts`; all fields optional. -/
structure UploadOptions where
  userId : Option String := none
  folder : Option String := none
  category : Option String := none
  description : Option String := none
  tags : Option (List String) := none
  isPublic : Option Bool := none
deriving DecidableEq

/-- `UploadMetadata` from `upload-options.interface.ts`. -/
structure UploadMetadata where
  userId : Option String
  category : Option String
  description : Option String
  folder : Option String
deriving DecidableEq

/-- `ImageSizeDto` from `upload-response.dto.ts`. -/
structure ImageSizeDto where
  url : String
  width : Nat
  height : Nat
  size : Nat
  format : String
deriving DecidableEq

/-- The `original` sub-object of `UploadResponseDto`. -/
structure OriginalInfo where
  filename : String
  mimetype : String
  size : Nat
deriving DecidableEq

/-- The `images` sub-object of `UploadResponseDto`: one entry per size name. -/
structure ImagesInfo where
  thumbnail : ImageSizeDto
  medium : ImageSizeDto
  large : ImageSizeDto
deriving DecidableEq

/-- `UploadResponseDto` from `upload-response.dto.ts` (options-aware variant,
which also carries `metadata`).  `uploadedAt` is a millisecond timestamp. -/
structure UploadResponseDto where
  success : Bool
  message : String
  original : OriginalInfo
  images : ImagesInfo
  metadata : UploadMetadata
  uploadedAt : Nat
deriving DecidableEq

/-- Errors thrown inside the service's `try` blocks: NestJS
`BadRequestException`s (from validation) and plain `Error`s (from the sharp
and Cloudinary collaborators), each carrying a `message`. -/
inductive PipelineError where
  | badRequest (message : String)
  | error (message : String)
deriving DecidableEq

/-- The `message` property of a thrown error. -/
def PipelineError.message : PipelineError → String
  | .badRequest m => m
  | .error m => m

/-- HTTP-level exceptions that NestJS can surface to clients.  The upload
service only ever constructs `badRequest`, but other kinds exist in the
framework, which makes "the surfaced failure is a BadRequestException" a
substantive statement. -/
inductive HttpError where
  | badRequest (message : String)
  | notFound (message : String)
  | internalServerError (message : String)
deriving DecidableEq

/-- Process configuration as read through `configService.get(key, default)`:
`none` means the environment variable is unset, so the default applies. -/
structure Config where
  maxFileSizeEnv : Option Nat := none
  allowedMimeTypesEnv : Option String := none
deriving DecidableEq

/-- `configService.get('MAX_FILE_SIZE', 5242880)`. -/
def Config.maxFileSize (cfg : Config) : Nat :=
  cfg.maxFileSizeEnv.getD 5242880

/-- `configService.get('ALLOWED_MIME_TYPES', 'image/jpeg,image/png,image/jpg')`. -/
def Config.allowedMimeTypesRaw (cfg : Config) : String :=
  cfg.allowedMimeTypesEnv.getD "image/jpeg,image/png,image/jpg"

/-- The configuration with every variable unset: all defaults apply. -/
def defaultConfig : Config := {}

/-- JavaScript truthiness of an optional string field: `undefined` and the
empty string are falsy, every other string is truthy. -/
def truthy (o : Option String) : Bool :=
  o.getD "" ≠ ""

/-- `UploadService.determineFolder` (upload.service.ts lines 426-444):
derives the Cloudinary folder from the options, first match wins. -/
def determineFolder (options : UploadOptions) : String :=
  if truthy options.folder then options.folder.getD ""
  else if truthy options.userId && truthy options.category then
    "uploads/" ++ options.category.getD "" ++ "/" ++ options.userId.getD ""
  else if truthy options.userId then
    "uploads/users/" ++ options.userId.getD ""
  else if truthy options.category then
    "uploads/" ++ options.category.getD ""
  else
    "uploads"

/-- `UploadService.buildFilenamePrefix` (upload.service.ts lines 451-463):
joins the truthy values of `userId` then `category` with an underscore,
falling back to the literal `image`. -/
def buildFilenamePrefix (options : UploadOptions) : String :=
  let parts : List String :=
    (if truthy options.userId then [options.userId.getD ""] else []) ++
      (if truthy options.category then [options.category.getD ""] else [])
  if parts.length > 0 then String.intercalate "_" parts else "image"

/-- `UploadService.extractMetadata` (upload.service.ts lines 470-477). -/
def extractMetadata (options : UploadOptions) : UploadMetadata :=
  { userId := options.userId
    category := options.category
    description := options.description
    folder := some (determineFolder options) }

/-- External collaborators of the service, as an explicit environment.
`transform` is `sharp(buffer).resize(w, h, cover/center).webp(quality 85)
.toBuffer()`; `decodeMeta` is `sharp(buffer).metadata()`; `uploadStream` is
`cloudinary.uploader.upload_stream(folder, public_id, ...)`, whose callback
receives an optional error and an optional result; `now` is the millisecond
clock `Date.now()` observed at the branch's naming step. -/
structure Env where
  transform : Buffer → Dimensions → Except String Buffer
  decodeMeta : Buffer → Except String SharpMetadata
  uploadStream : Buffer → String → String → Option String × Option CloudinaryResult
  now : Nat

/-- The rendering `(maxSize / (1024 * 1024)).toFixed(0)` used in the
size-limit message: the byte limit divided by 2^20, rounded to the nearest
integer (half rounds up, as for positive arguments of `toFixed`). -/
def maxSizeMBString (maxSize : Nat) : String :=
  Nat.repr ((maxSize + 524288) / 1048576)

/-- JavaScript `String.prototype.split(",")` on a character list: cut at
every comma, keeping empty segments. -/
def splitOnComma : List Char → List (List Char)
  | [] => [[]]
  | c :: rest =>
    if c = ',' then [] :: splitOnComma rest
    else
      match splitOnComma rest with
      | [] => [[c]]
      | seg :: segs => (c :: seg) :: segs

/-- JavaScript `s.split(",")`. -/
def jsSplitComma (s : String) : List String :=
  (splitOnComma s.data).map (fun cs => String.mk cs)

/-- `UploadService.validateFile` (upload.service.ts lines 484-513).  The
structural-integrity call `sharp(file.buffer).metadata().catch(...)` at lines
508-512 creates a promise that is never awaited, so its rejection cannot
reach the caller: the function's observable result does not depend on
`env.decodeMeta`, which is why `env` is not consulted below. -/
def validateFile (cfg : Config) (file : Option MulterFile) :
    Except PipelineError Unit :=
  match file with
  | none => .error (.badRequest "No file uploaded")
  | some f =>
    let maxSize := cfg.maxFileSize
    if f.size > maxSize then
      .error (.badRequest
        ("File too large. Maximum size is " ++ maxSizeMBString maxSize ++ "MB"))
    else
      let allowedMimeTypes := jsSplitComma cfg.allowedMimeTypesRaw
      if ¬ allowedMimeTypes.contains f.mimetype then
        .error (.badRequest
          ("Invalid file type. Allowed types: " ++
            String.intercalate ", " allowedMimeTypes))
      else
        .ok ()

/-- The object name built at upload.service.ts line 363:
the filename prefix, the size name and the millisecond timestamp captured by
this branch's `Date.now()` call, joined by underscores. -/
def buildFilename (filenamePre : String) (sizeName : String) (now : Nat) :
    String :=
  filenamePre ++ "_" ++ sizeName ++ "_" ++ Nat.repr now

/-- `UploadService.uploadToCloudinary` (upload.service.ts lines 388-419):
reject with the callback error, resolve with the callback result, and reject
with the no-result message when the callback delivers neither. -/
def uploadToCloudinary (env : Env) (buffer : Buffer) (filename : String)
    (folder : String) : Except PipelineError CloudinaryResult :=
  match env.uploadStream buffer filename folder with
  | (some err, _) => .error (.error err)
  | (none, some result) => .ok result
  | (none, none) =>
      .error (.error "Upload failed: No result returned from Cloudinary")

/-- `UploadService.resizeAndUpload` (upload.service.ts lines 346-378):
transform, read back metadata from the produced buffer, name the object and
upload it; the returned descriptor falls back to the requested dimensions
when the read-back metadata lacks them, and always reports format webp. -/
def resizeAndUpload (env : Env) (buffer : Buffer) (sizeName : String)
    (dimensions : Dimensions) (folder : String) ( filenamePrefix : String) :
    Except PipelineError ImageSizeDto := do
  let processedImage ← (env.transform buffer dimensions).mapError .error
  let metadata ← (env.decodeMeta processedImage).mapError .error
  let filename := buildFilename filenamePrefix sizeName env.now
  let uploadResult ← uploadToCloudinary env processedImage filename folder
  pure
    { url := uploadResult.secure_url
      width := metadata.width.getD dimensions.width
      height := metadata.height.getD dimensions.height
      size := processedImage.length
      format := "webp" }

/-- The `sizes` record of the service (upload.service.ts lines 240-244). -/
structure SizesSpec where
  thumbnail : Dimensions
  medium : Dimensions
  large : Dimensions

/-- The fixed size set: thumbnail 150, medium 500, large 1200. -/
def sizes : SizesSpec :=
  { thumbnail := { width := 150, height := 150 }
    medium := { width := 500, height := 500 }
    large := { width := 1200, height := 1200 } }

/-- The body of the `try` block of `UploadService.processAndUploadImage`
(upload.service.ts lines 260-305): validate, derive folder and prefix, fan
out the three size branches and assemble the response.  The source starts the
three branches concurrently and joins them with `Promise.all`; the model
sequences them in the listed order, which resolves `Promise.all`'s choice of
rejection deterministically to the first listed failing branch. -/
def processAndUploadImageBody (env : Env) (cfg : Config) (file : MulterFile)
    (options : UploadOptions) : Except PipelineError UploadResponseDto := do
  let _ ← validateFile cfg (some file)
  let folder := determineFolder options
  let filenamePre := buildFilenamePrefix options
  let thumbnail ←
    resizeAndUpload env file.buffer "thumbnail" sizes.thumbnail folder filenamePre
  let medium ←
    resizeAndUpload env file.buffer "medium" sizes.medium folder filenamePre
  let large ←
    resizeAndUpload env file.buffer "large" sizes.large folder filenamePre
  pure
    { success := true
      message := "Image uploaded successfully"
      original :=
        { filename := file.originalname
          mimetype := file.mimetype
          size := file.size }
      images := { thumbnail := thumbnail, medium := medium, large := large }
      metadata := extractMetadata options
      uploadedAt := env.now }

/-- `UploadService.processAndUploadImage` (upload.service.ts lines 256-311):
the `try` body, with every thrown error re-wrapped by the `catch` clause into
one `BadRequestException` whose message prefixes the underlying message. -/
def processAndUploadImage (env : Env) (cfg : Config) (file : MulterFile)
    (options : UploadOptions) : Except HttpError UploadResponseDto :=
  match processAndUploadImageBody env cfg file options with
  | .ok r => .ok r
  | .error e =>
      .error (.badRequest ("Image processing failed: " ++ e.message))

/-- `Promise.all` over a list of already-settled outcomes listed in input
order: all values in input order, or a failure when any branch failed (the
model surfaces the first listed failure). -/
def promiseAll {ε α : Type} : List (Except ε α) → Except ε (List α)
  | [] => .ok []
  | .error e :: _ => .error e
  | .ok a :: rest => (promiseAll rest).map (a :: ·)

/-- `UploadService.processMultipleImages` (upload.service.ts lines 319-335):
guard the batch size, then map each file through the single-image pipeline
and join with `Promise.all`.  The `files` argument is optional because the
source also guards against a missing array (`!files`). -/
def processMultipleImages (env : Env) (cfg : Config)
    (files : Option (List MulterFile)) (options : UploadOptions) :
    Except HttpError (List UploadResponseDto) :=
  match files with
  | none => .error (.badRequest "No files uploaded")
  | some fs =>
    if fs.length == 0 then .error (.badRequest "No files uploaded")
    else if fs.length > 10 then .error (.badRequest "Maximum 10 files allowed")
    else promiseAll (fs.map (fun f => processAndUploadImage env cfg f options))

/-- The remote object store's visible state: the set of public ids that
currently exist (public ids are globally unique, so a list without the
deleted id models removal). -/
abbrev Store := List String

/-- The Cloudinary destroy-by-id primitive consumed by the service (an
external collaborator): it reports `result = "ok"` and removes the asset
when the id exists, and reports `"not found"` otherwise. -/
def destroy (store : Store) (publicId : String) : String × Store :=
  if publicId ∈ store then ("ok", store.filter (· ≠ publicId))
  else ("not found", store)

/-- The success payload of `UploadService.deleteImage`. -/
structure DeleteResponse where
  success : Bool
  message : String
deriving DecidableEq

/-- `UploadService.deleteImage` (upload.service.ts lines 521-543): inside the
`try`, an empty public id throws `Public ID is required` before the remote
call; a non-`ok` remote result throws `Failed to delete image`; the `catch`
re-wraps any thrown message with the `Delete failed: ` prefix. -/
def deleteImage (store : Store) (publicId : String) :
    Except HttpError DeleteResponse × Store :=
  if publicId = "" then
    (.error (.badRequest ("Delete failed: " ++ "Public ID is required")), store)
  else
    let (result, store') := destroy store publicId
    if result = "ok" then
      (.ok { success := true, message := "Image deleted successfully" }, store')
    else
      (.error (.badRequest ("Delete failed: " ++ "Failed to delete image")),
        store')

/-- The JSON values a serialized response is made of. -/
inductive Json where
  | str (s : String)
  | num (n : Nat)
  | bool (b : Bool)
  | null
  | arr (elems : List Json)
  | obj (fields : List (String × Json))

/-- Look a key up in a serialized JSON object. -/
def Json.lookup : Json → String → Option Json
  | .obj fields, key => fields.lookup key
  | _, _ => none

/-- Serialization of an optional string field. -/
def jsonOfOptStr : Option String → Json
  | none => .null
  | some s => .str s

/-- Serialization of `ImageSizeDto`, field names as in the DTO class. -/
def ImageSizeDto.toJson (d : ImageSizeDto) : Json :=
  .obj
    [("url", .str d.url), ("width", .num d.width), ("height", .num d.height),
      ("size", .num d.size), ("format", .str d.format)]

/-- Serialization of `UploadResponseDto`, mirroring the object literal built
at upload.service.ts lines 290-305: its keys are `success`, `message`,
`original`, `images`, `metadata`, `uploadedAt`, and under `images` exactly
the keys `thumbnail`, `medium`, `large`. -/
def UploadResponseDto.toJson (r : UploadResponseDto) : Json :=
  .obj
    [("success", .bool r.success),
      ("message", .str r.message),
      ("original", .obj
        [("filename", .str r.original.filename),
          ("mimetype", .str r.original.mimetype),
          ("size", .num r.original.size)]),
      ("images", .obj
        [("thumbnail", r.images.thumbnail.toJson),
          ("medium", r.images.medium.toJson),
          ("large", r.images.large.toJson)]),
      ("metadata", .obj
        [("userId", jsonOfOptStr r.metadata.userId),
          ("category", jsonOfOptStr r.metadata.category),
          ("description", jsonOfOptStr r.metadata.description),
          ("folder", jsonOfOptStr r.metadata.folder)]),
      ("uploadedAt", .num r.uploadedAt)]

/-- One invocation of `resizeAndUpload`, as far as object naming is
concerned: the buffer it was given, the size name, and the millisecond value
`Date.now()` returned at line 363 during that invocation.  Distinct uploads
(for instance of different buffers) are distinct events. -/
structure UploadEvent where
  buffer : Buffer
  sizeName : String
  timestamp : Nat
deriving DecidableEq

/-- The stored object name an upload event produces under a given filename
prefix, per upload.service.ts line 363. -/
def eventObjectName (filenamePre : String) (e : UploadEvent) : String :=
  buildFilename filenamePre e.sizeName e.timestamp

/-! Decimal rendering of timestamps: `Nat.repr` is injective, proved through
an evaluator for decimal digit strings.  This underpins the uniqueness part
of the object-naming claim. -/

/-- Numeric value of a decimal digit character. -/
def digitVal (c : Char) : Nat :=
  c.toNat - 48

/-- Value of a most-significant-first decimal digit list. -/
def digitsVal (l : List Char) : Nat :=
  l.foldl (fun a c => 10 * a + digitVal c) 0

theorem digitVal_digitChar (k : Nat) (h : k < 10) :
    digitVal (Nat.digitChar k) = k := by
  interval_cases k <;> rfl

theorem digitsVal_append_singleton (xs : List Char) (c : Char) :
    digitsVal (xs ++ [c]) = 10 * digitsVal xs + digitVal c := by
  simp [digitsVal, List.foldl_append]

theorem toDigitsCore_eq_append (f : Nat) :
    ∀ (n : Nat) (ds : List Char),
      Nat.toDigitsCore 10 f n ds = Nat.toDigitsCore 10 f n [] ++ ds := by
  induction f with
  | zero => intro n ds; simp [Nat.toDigitsCore]
  | succ f ih =>
    intro n ds
    simp only [Nat.toDigitsCore]
    by_cases h : n / 10 = 0
    · simp [h]
    · simp only [h, if_false]
      rw [ih (n / 10) (Nat.digitChar (n % 10) :: ds),
        ih (n / 10) [Nat.digitChar (n % 10)], List.append_assoc]
      rfl

theorem digitsVal_toDigitsCore (f : Nat) :
    ∀ n : Nat, n < f → digitsVal (Nat.toDigitsCore 10 f n []) = n := by
  induction f with
  | zero => intro n h; omega
  | succ f ih =>
    intro n h
    simp only [Nat.toDigitsCore]
    by_cases h10 : n / 10 = 0
    · have hn : n < 10 := by omega
      simp [h10, digitsVal, digitVal_digitChar (n % 10) (by omega)]
      omega
    · simp only [h10, if_false]
      rw [toDigitsCore_eq_append, digitsVal_append_singleton,
        ih (n / 10) (by omega), digitVal_digitChar (n % 10) (by omega)]
      omega

theorem digitsVal_data_repr (n : Nat) : digitsVal (Nat.repr n).data = n := by
  have : (Nat.repr n).data = Nat.toDigitsCore 10 (n + 1) n [] := rfl
  rw [this]
  exact digitsVal_toDigitsCore (n + 1) n (Nat.lt_succ_self n)

/-- Two invocations of the object-naming step with the same filename prefix
and size name produce the same name only when their captured millisecond
timestamps agree. -/
theorem buildFilename_timestamp_inj (p s : String) (t₁ t₂ : Nat)
    (h : buildFilename p s t₁ = buildFilename p s t₂) : t₁ = t₂ := by
  have h2 := congrArg String.data h
  simp only [buildFilename, String.data_append, List.append_assoc] at h2
  have h3 := List.append_cancel_left (List.append_cancel_left
    (List.append_cancel_left (List.append_cancel_left h2)))
  calc t₁ = digitsVal (Nat.repr t₁).data := (digitsVal_data_repr t₁).symm
    _ = digitsVal (Nat.repr t₂).data := by rw [h3]
    _ = t₂ := digitsVal_data_repr t₂

theorem except_bind_ok {ε α β : Type} (a : α) (k : α → Except ε β) :
    (Except.ok a >>= k) = k a := rfl

theorem except_bind_error {ε α β : Type} (e : ε) (k : α → Except ε β) :
    ((Except.error e : Except ε α) >>= k) = Except.error e := rfl

theorem except_map_ok {ε α β : Type} (f : α → β) (a : α) :
    (f <$> (Except.ok a : Except ε α)) = Except.ok (f a) := rfl

theorem except_map_error {ε α β : Type} (f : α → β) (e : ε) :
    (f <$> (Except.error e : Except ε α)) = Except.error e := rfl

theorem except_pure {ε α : Type} (a : α) :
    (pure a : Except ε α) = Except.ok a := rfl

/-- The cover-fit contract of the sharp collaborator (a resize with cover
fit fills the target box exactly): whenever a transform to a target box
succeeds and metadata is read back from the produced buffer, the metadata
reports exactly the box dimensions. -/
def Env.coverFitConformant (env : Env) : Prop :=
  ∀ buf dims out meta, env.transform buf dims = .ok out →
    env.decodeMeta out = .ok meta →
    meta.width = some dims.width ∧ meta.height = some dims.height

/-- A concrete cover-fit-conformant environment for evaluating the pipeline
on closed inputs: the transform records the requested box in the produced
buffer, metadata reads it back, and every upload succeeds. -/
def demoEnv : Env :=
  { transform := fun _ dims => .ok [dims.width, dims.height]
    decodeMeta := fun b =>
      .ok { width := b.get? 0, height := b.get? 1, format := some "webp" }
    uploadStream := fun _ filename folder =>
      (none,
        some { secure_url := "https://res.example.com/" ++ folder ++ "/" ++ filename })
    now := 1700000000000 }

theorem demoEnv_coverFitConformant : demoEnv.coverFitConformant := by
  intro buf dims out meta hT hM
  simp only [demoEnv, Except.ok.injEq] at hT hM
  subst hT
  cases hM
  exact ⟨rfl, rfl⟩

/-- A small valid jpeg upload used to evaluate the pipeline. -/
def demoFile : MulterFile :=
  { originalname := "photo.jpg"
    mimetype := "image/jpeg"
    size := 1024
    buffer := [7, 7, 7] }

/-- Fan-in of successful branches: when every mapped task succeeds,
`Promise.all` yields the values in input order. -/
theorem promiseAll_map_ok {α β ε : Type} (g : α → Except ε β) (h : α → β) :
    ∀ xs : List α, (∀ x ∈ xs, g x = .ok (h x)) →
      promiseAll (xs.map g) = .ok (xs.map h) := by
  intro xs
  induction xs with
  | nil => intro _; rfl
  | cons x rest ih =>
    intro hall
    have hx := hall x (List.mem_cons_self x rest)
    have hrest := ih fun y hy => hall y (List.mem_cons_of_mem x hy)
    simp [promiseAll, hx, hrest, Except.map]

/-- Fan-in with a failed branch: when some mapped task fails, `Promise.all`
never yields a value list. -/
theorem promiseAll_map_not_ok {α β ε : Type} (g : α → Except ε β)
    (xs : List α) (x : α) (hx : x ∈ xs) (e : ε) (he : g x = .error e) :
    ∀ rs, promiseAll (xs.map g) ≠ .ok rs := by
  induction xs with
  | nil => cases hx
  | cons y rest ih =>
    intro rs h
    rcases List.mem_cons.mp hx with rfl | hmem
    · rw [List.map_cons, he] at h
      simp [promiseAll] at h
    · rw [List.map_cons] at h
      cases hg : g y with
      | error e' => rw [hg] at h; simp [promiseAll] at h
      | ok a =>
        rw [hg] at h
        cases hrest : promiseAll (rest.map g) with
        | error e' => rw [promiseAll, hrest] at h; simp [Except.map] at h
        | ok as => exact ih hmem as hrest

/-- C8: for every `UploadOptions` value, `determineFolder` applies the five
precedence rules first-match-wins: a present (truthy) explicit folder is
returned verbatim; otherwise userId and category both present give
`uploads/{category}/{userId}`; only userId gives `uploads/users/{userId}`;
only category gives `uploads/{category}`; neither gives `uploads`. -/
theorem determineFolder_precedence (o : UploadOptions) :
    (truthy o.folder = true → determineFolder o = o.folder.getD "") ∧
    (truthy o.folder = false → truthy o.userId = true →
      truthy o.category = true →
      determineFolder o =
        "uploads/" ++ o.category.getD "" ++ "/" ++ o.userId.getD "") ∧
    (truthy o.folder = false → truthy o.userId = true →
      truthy o.category = false →
      determineFolder o = "uploads/users/" ++ o.userId.getD "") ∧
    (truthy o.folder = false → truthy o.userId = false →
      truthy o.category = true →
      determineFolder o = "uploads/" ++ o.category.getD "") ∧
    (truthy o.folder = false → truthy o.userId = false →
      truthy o.category = false → determineFolder o = "uploads") := by
  refine ⟨fun h1 => ?_, fun h1 h2 h3 => ?_, fun h1 h2 h3 => ?_,
    fun h1 h2 h3 => ?_, fun h1 h2 h3 => ?_⟩ <;>
    simp [determineFolder, h1, *]

/-- C8 witness: the first and the last precedence rule evaluated at concrete
option records (an explicit folder wins over userId and category; an empty
record resolves to the plain uploads folder). -/
theorem determineFolder_precedence_witness :
    determineFolder
        { folder := some "x", userId := some "u", category := some "c" } =
      "x" ∧
    determineFolder {} = "uploads" := by
  constructor
  · exact (determineFolder_precedence
      { folder := some "x", userId := some "u", category := some "c" }).1
      (by decide)
  · exact (determineFolder_precedence {}).2.2.2.2 (by decide) (by decide)
      (by decide)

/-- A webp file that is within the size limit. -/
def webpFile : MulterFile :=
  { originalname := "photo.webp"
    mimetype := "image/webp"
    size := 2048
    buffer := [9, 9] }

/-- The configuration the repository's test suite injects: the allowed-type
list extended with webp. -/
def testConfig : Config :=
  { allowedMimeTypesEnv := some "image/jpeg,image/png,image/jpg,image/webp" }

/-- `validateFile` on a present file, with the `let` bindings inlined; this
restates the definition for rewriting. -/
theorem validateFile_eq (cfg : Config) (f : MulterFile) :
    validateFile cfg (some f) =
      if f.size > cfg.maxFileSize then
        .error (.badRequest
          ("File too large. Maximum size is " ++
            maxSizeMBString cfg.maxFileSize ++ "MB"))
      else if ¬ (jsSplitComma cfg.allowedMimeTypesRaw).contains f.mimetype then
        .error (.badRequest
          ("Invalid file type. Allowed types: " ++
            String.intercalate ", " (jsSplitComma cfg.allowedMimeTypesRaw)))
      else .ok () :=
  rfl

/-- C3: under the default configuration (no environment variables set) the
allowed list the code builds is jpeg, png and jpg only — webp is missing,
although the repository's README documents the default of
`ALLOWED_MIME_TYPES` as including `image/webp` — so a within-size webp file
is rejected as an unsupported type. -/
theorem validateFile_default_rejects_webp :
    validateFile defaultConfig (some webpFile) =
      .error (.badRequest
        "Invalid file type. Allowed types: image/jpeg, image/png, image/jpg") :=
  rfl

/-- General form of the default-type divergence: every within-size file
whose declared type is `image/webp` fails validation as an unsupported type
under the default configuration, and passes once `ALLOWED_MIME_TYPES` is
configured to include webp, as the repository's test configuration does. -/
theorem validateFile_default_webp_unsupported (f : MulterFile)
    (hsize : f.size ≤ 5242880) (hmime : f.mimetype = "image/webp") :
    jsSplitComma defaultConfig.allowedMimeTypesRaw =
        ["image/jpeg", "image/png", "image/jpg"] ∧
    validateFile defaultConfig (some f) =
      .error (.badRequest
        "Invalid file type. Allowed types: image/jpeg, image/png, image/jpg") ∧
    validateFile testConfig (some f) = .ok () := by
  refine ⟨rfl, ?_, ?_⟩
  · rw [validateFile_eq,
      if_neg (show ¬ f.size > defaultConfig.maxFileSize from
        show ¬ f.size > 5242880 by omega),
      hmime]
    rfl
  · rw [validateFile_eq,
      if_neg (show ¬ f.size > testConfig.maxFileSize from
        show ¬ f.size > 5242880 by omega),
      hmime]
    rfl

/-- The default-type divergence evaluated at the concrete webp file. -/
theorem validateFile_default_webp_unsupported_witness :
    jsSplitComma defaultConfig.allowedMimeTypesRaw =
        ["image/jpeg", "image/png", "image/jpg"] ∧
    validateFile defaultConfig (some webpFile) =
      .error (.badRequest
        "Invalid file type. Allowed types: image/jpeg, image/png, image/jpg") ∧
    validateFile testConfig (some webpFile) = .ok () :=
  validateFile_default_webp_unsupported webpFile (by decide) rfl

/-- An environment whose sharp collaborator can decode no buffer at all. -/
def corruptEnv : Env :=
  { transform := fun _ _ =>
      .error "Input buffer contains unsupported image format"
    decodeMeta := fun _ =>
      .error "Input buffer contains unsupported image format"
    uploadStream := fun _ _ _ => (none, none)
    now := 1700000000000 }

/-- C4: a file that passes the size and type checks but whose buffer the
sharp collaborator cannot decode still passes validation — the decode
failure never surfaces from `validateFile`, because the integrity-check
promise of upload.service.ts lines 508-512 is never awaited, leaving the
documented corrupt-image rejection unreachable. -/
theorem validateFile_corrupt_buffer_passes :
    corruptEnv.decodeMeta demoFile.buffer =
        .error "Input buffer contains unsupported image format" ∧
    validateFile defaultConfig (some demoFile) = .ok () :=
  ⟨rfl, rfl⟩

/-- General form of the advisory behavior: for every file that passes the
size and media-type checks, `validateFile` succeeds even when the
collaborator cannot decode the buffer, and the pipeline then proceeds to
the transform stage (whose failure is what the caller observes, wrapped by
the pipeline's catch clause). -/
theorem validateFile_integrity_advisory (cfg : Config) (env : Env)
    (f : MulterFile) (options : UploadOptions) (dmsg tmsg : String)
    (hsize : ¬ f.size > cfg.maxFileSize)
    (hmime : (jsSplitComma cfg.allowedMimeTypesRaw).contains f.mimetype = true)
    (hdec : env.decodeMeta f.buffer = .error dmsg)
    (htr : env.transform f.buffer sizes.thumbnail = .error tmsg) :
    validateFile cfg (some f) = .ok () ∧
    processAndUploadImage env cfg f options =
      .error (.badRequest ("Image processing failed: " ++ tmsg)) := by
  have hmem : f.mimetype ∈ jsSplitComma cfg.allowedMimeTypesRaw := by
    simpa using hmime
  have hval : validateFile cfg (some f) = .ok () := by
    rw [validateFile_eq, if_neg hsize, if_neg (by simp [hmem])]
  refine ⟨hval, ?_⟩
  simp [processAndUploadImage, processAndUploadImageBody, hval,
    resizeAndUpload, htr, Except.mapError, PipelineError.message,
    except_bind_ok, except_bind_error, except_map_ok, except_map_error]

/-- The advisory behavior observed on a concrete corrupt file in the
all-corrupt environment. -/
theorem validateFile_integrity_advisory_witness :
    validateFile defaultConfig (some demoFile) = .ok () ∧
    processAndUploadImage corruptEnv defaultConfig demoFile {} =
      .error (.badRequest
        ("Image processing failed: " ++
          "Input buffer contains unsupported image format")) :=
  validateFile_integrity_advisory defaultConfig corruptEnv demoFile {}
    "Input buffer contains unsupported image format"
    "Input buffer contains unsupported image format"
    (by decide) (by decide) rfl rfl

/-- C7: a file whose declared size strictly exceeds the configured limit
fails validation with the too-large message, which reports the configured
limit converted to megabytes; the whole pipeline surfaces exactly that
failure for every environment of collaborators, so the transform stage is
never consulted. -/
theorem validateFile_tooLarge_blocks (cfg : Config) (f : MulterFile)
    (options : UploadOptions) (hsize : f.size > cfg.maxFileSize) :
    validateFile cfg (some f) =
      .error (.badRequest
        ("File too large. Maximum size is " ++
          maxSizeMBString cfg.maxFileSize ++ "MB")) ∧
    (∀ env : Env, processAndUploadImage env cfg f options =
      .error (.badRequest
        ("Image processing failed: " ++
          ("File too large. Maximum size is " ++
            maxSizeMBString cfg.maxFileSize ++ "MB")))) := by
  have hval : validateFile cfg (some f) =
      .error (.badRequest
        ("File too large. Maximum size is " ++
          maxSizeMBString cfg.maxFileSize ++ "MB")) := by
    rw [validateFile_eq, if_pos hsize]
  refine ⟨hval, fun env => ?_⟩
  simp [processAndUploadImage, processAndUploadImageBody, hval,
    PipelineError.message, except_bind_ok, except_bind_error, except_map_ok,
    except_map_error]

/-- An oversized jpeg: one byte above the default limit. -/
def oversizedFile : MulterFile :=
  { originalname := "big.jpg"
    mimetype := "image/jpeg"
    size := 5242881
    buffer := [1] }

/-- C7 witness: at the default limit the message renders as 5MB, and the
pipeline on a concrete oversized file fails with exactly that message in
each of two unrelated environments. -/
theorem validateFile_tooLarge_blocks_witness :
    maxSizeMBString defaultConfig.maxFileSize = "5" ∧
    validateFile defaultConfig (some oversizedFile) =
      .error (.badRequest "File too large. Maximum size is 5MB") ∧
    processAndUploadImage demoEnv defaultConfig oversizedFile {} =
      .error
        (.badRequest "Image processing failed: File too large. Maximum size is 5MB") ∧
    processAndUploadImage corruptEnv defaultConfig oversizedFile {} =
      .error
        (.badRequest "Image processing failed: File too large. Maximum size is 5MB") := by
  have h := validateFile_tooLarge_blocks defaultConfig oversizedFile {}
    (by decide)
  exact ⟨by decide, h.1, h.2 demoEnv, h.2 corruptEnv⟩

/-- C10: every failure inside the single-image pipeline is surfaced as one
BadRequestException whose message is the fixed prefix `Image processing
failed: ` followed by the underlying error's message, and conversely every
surfaced failure has exactly that shape, so the underlying error kind is not
distinguishable by exception type at the public interface. -/
theorem processAndUploadImage_error_wrapping (env : Env) (cfg : Config)
    (f : MulterFile) (options : UploadOptions) :
    (∀ e : PipelineError,
      processAndUploadImageBody env cfg f options = .error e →
      processAndUploadImage env cfg f options =
        .error (.badRequest ("Image processing failed: " ++ e.message))) ∧
    (∀ err : HttpError,
      processAndUploadImage env cfg f options = .error err →
      ∃ m : String, err = .badRequest ("Image processing failed: " ++ m)) := by
  constructor
  · intro e he
    simp [processAndUploadImage, he]
  · intro err herr
    unfold processAndUploadImage at herr
    cases hbody : processAndUploadImageBody env cfg f options with
    | ok r => rw [hbody] at herr; cases herr
    | error e =>
      rw [hbody] at herr
      cases herr
      exact ⟨e.message, rfl⟩

/-- C10 witness: the wrapping observed on a concrete validation failure (an
oversized file). -/
theorem processAndUploadImage_error_wrapping_witness :
    processAndUploadImage demoEnv defaultConfig oversizedFile {} =
      .error
        (.badRequest
          ("Image processing failed: " ++ "File too large. Maximum size is 5MB")) :=
  (processAndUploadImage_error_wrapping demoEnv defaultConfig oversizedFile
    {}).1 (.badRequest "File too large. Maximum size is 5MB") rfl

/-- C2: whenever any file of a batch fails the single-image pipeline, the
whole batch call fails: no list of results, partial or complete, is
returned to the caller. -/
theorem processMultipleImages_aborts_on_failure (env : Env) (cfg : Config)
    (files : List MulterFile) (options : UploadOptions) (f : MulterFile)
    (e : HttpError) (hf : f ∈ files)
    (hfail : processAndUploadImage env cfg f options = .error e) :
    (∃ e₂, processMultipleImages env cfg (some files) options = .error e₂) ∧
    (∀ rs, processMultipleImages env cfg (some files) options ≠ .ok rs) := by
  have hnotok :
      ∀ rs, processMultipleImages env cfg (some files) options ≠ .ok rs := by
    intro rs h
    simp only [processMultipleImages] at h
    split at h
    · cases h
    · split at h
      · cases h
      · exact promiseAll_map_not_ok
          (fun g => processAndUploadImage env cfg g options) files f hf e
          hfail rs h
  refine ⟨?_, hnotok⟩
  cases hres : processMultipleImages env cfg (some files) options with
  | ok rs => exact absurd hres (hnotok rs)
  | error e₂ => exact ⟨e₂, rfl⟩

/-- C2 witness: a concrete two-file batch whose second file is oversized is
not answered with a result list. -/
theorem processMultipleImages_aborts_on_failure_witness :
    processMultipleImages demoEnv defaultConfig
        (some [demoFile, oversizedFile]) {} ≠ Except.ok [] :=
  (processMultipleImages_aborts_on_failure demoEnv defaultConfig
    [demoFile, oversizedFile] {} oversizedFile
    (.badRequest "Image processing failed: File too large. Maximum size is 5MB")
    (by simp) rfl).2 []

/-- The response the pipeline computes for `demoFile` in `demoEnv` with no
options: folder `uploads`, prefix `image`, all three branches succeed. -/
def demoResponse : UploadResponseDto :=
  { success := true
    message := "Image uploaded successfully"
    original :=
      { filename := "photo.jpg", mimetype := "image/jpeg", size := 1024 }
    images :=
      { thumbnail :=
          { url := "https://res.example.com/uploads/image_thumbnail_1700000000000"
            width := 150
            height := 150
            size := 2
            format := "webp" }
        medium :=
          { url := "https://res.example.com/uploads/image_medium_1700000000000"
            width := 500
            height := 500
            size := 2
            format := "webp" }
        large :=
          { url := "https://res.example.com/uploads/image_large_1700000000000"
            width := 1200
            height := 1200
            size := 2
            format := "webp" } }
    metadata :=
      { userId := none
        category := none
        description := none
        folder := some "uploads" }
    uploadedAt := 1700000000000 }

theorem demoFile_processes_to_demoResponse :
    processAndUploadImage demoEnv defaultConfig demoFile {} =
      .ok demoResponse := rfl

/-- C6: the batch coordinator rejects an empty batch and any batch of more
than ten files with the respective messages, and a batch of exactly ten
files whose single-image pipelines all succeed is answered with exactly the
ten per-file results, listed index-aligned with the input order (the fan-in
assembles results by input position, so completion order of the concurrent
work cannot affect it). -/
theorem processMultipleImages_bounds (env : Env) (cfg : Config)
    (options : UploadOptions) :
    (processMultipleImages env cfg (some []) options =
      .error (.badRequest "No files uploaded")) ∧
    (∀ files : List MulterFile, files.length > 10 →
      processMultipleImages env cfg (some files) options =
        .error (.badRequest "Maximum 10 files allowed")) ∧
    (∀ (files : List MulterFile) (res : MulterFile → UploadResponseDto),
      files.length = 10 →
      (∀ f ∈ files, processAndUploadImage env cfg f options = .ok (res f)) →
      processMultipleImages env cfg (some files) options =
        .ok (files.map res) ∧
      (files.map res).length = 10 ∧
      (∀ i : Nat, (files.map res)[i]? = (files[i]?).map res)) := by
  refine ⟨rfl, fun files hlen => ?_, fun files res hlen hall => ?_⟩
  · simp only [processMultipleImages]
    rw [if_neg (by simp only [beq_iff_eq]; omega), if_pos hlen]
  · refine ⟨?_, by simp [hlen], fun i => by simp [List.getElem?_map]⟩
    simp only [processMultipleImages]
    rw [if_neg (by simp only [beq_iff_eq]; omega), if_neg (by omega)]
    exact promiseAll_map_ok _ res files hall

/-- C6 witness: the bounds and the aligned success observed on concrete
batches of sizes zero, eleven and ten. -/
theorem processMultipleImages_bounds_witness :
    processMultipleImages demoEnv defaultConfig (some []) {} =
      .error (.badRequest "No files uploaded") ∧
    processMultipleImages demoEnv defaultConfig
        (some (List.replicate 11 demoFile)) {} =
      .error (.badRequest "Maximum 10 files allowed") ∧
    processMultipleImages demoEnv defaultConfig
        (some (List.replicate 10 demoFile)) {} =
      .ok ((List.replicate 10 demoFile).map fun _ => demoResponse) := by
  have h := processMultipleImages_bounds demoEnv defaultConfig {}
  refine ⟨h.1, h.2.1 (List.replicate 11 demoFile) (by simp),
    (h.2.2 (List.replicate 10 demoFile) (fun _ => demoResponse) (by simp)
      ?_).1⟩
  intro f hf
  rw [List.eq_of_mem_replicate hf]
  exact demoFile_processes_to_demoResponse

/-- C9: deleting with an empty public id fails with the missing-id message
without contacting the store; deleting an existing asset succeeds; and
repeating the call on the now-deleted identifier fails with the
delete-failed message — an error result, not a crash and not a success. -/
theorem deleteImage_missingId_and_repeat (store : Store) (publicId : String)
    (hne : publicId ≠ "") (hmem : publicId ∈ store) :
    deleteImage store "" =
      (.error (.badRequest "Delete failed: Public ID is required"), store) ∧
    (deleteImage store publicId).1 =
      .ok { success := true, message := "Image deleted successfully" } ∧
    (deleteImage (deleteImage store publicId).2 publicId).1 =
      .error (.badRequest "Delete failed: Failed to delete image") := by
  have hfirst : deleteImage store publicId =
      (.ok { success := true, message := "Image deleted successfully" },
        store.filter (· ≠ publicId)) := by
    simp only [deleteImage, destroy, if_neg hne, if_pos hmem]
    rfl
  have hgone : publicId ∉ store.filter (· ≠ publicId) := by
    intro hmem2
    have := (List.mem_filter.mp hmem2).2
    simp at this
  refine ⟨rfl, by rw [hfirst], ?_⟩
  rw [hfirst]
  simp only [deleteImage, destroy, if_neg hne, if_neg hgone]
  rfl

/-- C9 witness: the full scenario on a one-asset store. -/
theorem deleteImage_missingId_and_repeat_witness :
    deleteImage ["uploads/demo_1"] "" =
      (.error (.badRequest "Delete failed: Public ID is required"),
        ["uploads/demo_1"]) ∧
    (deleteImage ["uploads/demo_1"] "uploads/demo_1").1 =
      .ok { success := true, message := "Image deleted successfully" } ∧
    (deleteImage (deleteImage ["uploads/demo_1"] "uploads/demo_1").2
        "uploads/demo_1").1 =
      .error (.badRequest "Delete failed: Failed to delete image") :=
  deleteImage_missingId_and_repeat ["uploads/demo_1"] "uploads/demo_1"
    (by decide) (by simp)

/-- An upload event of one source buffer. -/
def eventA : UploadEvent :=
  { buffer := [0], sizeName := "thumbnail", timestamp := 1700000000000 }

/-- An upload event of a different source buffer whose naming step ran in
the same millisecond as that of `eventA`. -/
def eventB : UploadEvent :=
  { buffer := [1], sizeName := "thumbnail", timestamp := 1700000000000 }

/-- C5 counterexample: two distinct uploads with the same logical prefix and
size name receive the same object name when their naming steps observe the
same millisecond, so the naming scheme does not guarantee distinct names for
repeated uploads within one process. -/
theorem eventObjectName_collision :
    eventA ≠ eventB ∧
    eventObjectName "image" eventA = eventObjectName "image" eventB :=
  ⟨by decide, rfl⟩

/-- C5 amended: every stored object name is the prefix, the size name and
the branch's captured millisecond timestamp joined by underscores, and two
uploads with the same prefix and size name receive distinct names whenever
their captured timestamps differ; in the same millisecond the names
coincide, so uniqueness is not guaranteed across repeated uploads. -/
theorem eventObjectName_format_and_uniqueness (p : String)
    (e₁ e₂ : UploadEvent) (hsz : e₁.sizeName = e₂.sizeName)
    (hts : e₁.timestamp ≠ e₂.timestamp) :
    eventObjectName p e₁ =
      p ++ "_" ++ e₁.sizeName ++ "_" ++ Nat.repr e₁.timestamp ∧
    eventObjectName p e₁ ≠ eventObjectName p e₂ := by
  refine ⟨rfl, fun h => hts ?_⟩
  rw [eventObjectName, eventObjectName, ← hsz] at h
  exact buildFilename_timestamp_inj p e₁.sizeName e₁.timestamp e₂.timestamp h

/-- C5 amended witness: the name format at a concrete event, and distinct
names for two events one millisecond apart. -/
theorem eventObjectName_format_and_uniqueness_witness :
    eventObjectName "image" eventA = "image_thumbnail_1700000000000" ∧
    eventObjectName "image" eventA ≠
      eventObjectName "image"
        { buffer := [0], sizeName := "thumbnail",
          timestamp := 1700000000001 } := by
  have h := eventObjectName_format_and_uniqueness "image" eventA
    { buffer := [0], sizeName := "thumbnail", timestamp := 1700000000001 }
    rfl (by decide)
  exact ⟨by decide, h.2⟩

/-- Under the cover-fit contract, a successful size branch yields a
descriptor with exactly the requested box dimensions and format webp. -/
theorem resizeAndUpload_ok (env : Env) (hconf : env.coverFitConformant)
    (buffer : Buffer) (sizeName : String) (dims : Dimensions)
    (folder fnPre : String) (d : ImageSizeDto)
    (h : resizeAndUpload env buffer sizeName dims folder fnPre = .ok d) :
    d.width = dims.width ∧ d.height = dims.height ∧ d.format = "webp" := by
  unfold resizeAndUpload at h
  cases ht : env.transform buffer dims with
  | error e =>
    rw [ht] at h
    simp [Except.mapError, except_bind_error] at h
  | ok out =>
    rw [ht] at h
    simp only [Except.mapError, except_bind_ok] at h
    cases hm : env.decodeMeta out with
    | error e =>
      rw [hm] at h
      simp [except_bind_error] at h
    | ok meta =>
      rw [hm] at h
      simp only [except_bind_ok] at h
      cases hu : uploadToCloudinary env out
          (buildFilename fnPre sizeName env.now) folder with
      | error e =>
        rw [hu] at h
        simp [except_bind_error] at h
      | ok res =>
        rw [hu] at h
        simp only [except_bind_ok, except_map_ok, except_pure,
          Except.ok.injEq] at h
        obtain ⟨hw, hh⟩ := hconf buffer dims out meta ht hm
        subst h
        simp [hw, hh]

/-- C1 counterexample: a successful run of the pipeline, whose serialized
response has no field named `variants` — the three size descriptors sit
under the field named `images`. -/
theorem response_field_is_images_not_variants :
    processAndUploadImage demoEnv defaultConfig demoFile {} =
      .ok demoResponse ∧
    demoResponse.toJson.lookup "variants" = none ∧
    demoResponse.toJson.lookup "images" =
      some (.obj
        [("thumbnail", demoResponse.images.thumbnail.toJson),
          ("medium", demoResponse.images.medium.toJson),
          ("large", demoResponse.images.large.toJson)]) :=
  ⟨demoFile_processes_to_demoResponse, rfl, rfl⟩

/-- C1 amended: for every input on which the pipeline succeeds, under the
cover-fit contract of the transformer, the response carries exactly three
size descriptors, keyed `thumbnail`, `medium` and `large` under the
response field named `images` (the serialization has no `variants` field),
with dimensions exactly 150, 500 and 1200 on a side respectively and format
webp for every descriptor. -/
theorem processAndUploadImage_three_variants (env : Env) (cfg : Config)
    (f : MulterFile) (options : UploadOptions) (r : UploadResponseDto)
    (hconf : env.coverFitConformant)
    (hok : processAndUploadImage env cfg f options = .ok r) :
    r.images.thumbnail.width = 150 ∧ r.images.thumbnail.height = 150 ∧
    r.images.thumbnail.format = "webp" ∧
    r.images.medium.width = 500 ∧ r.images.medium.height = 500 ∧
    r.images.medium.format = "webp" ∧
    r.images.large.width = 1200 ∧ r.images.large.height = 1200 ∧
    r.images.large.format = "webp" ∧
    r.toJson.lookup "variants" = none ∧
    r.toJson.lookup "images" =
      some (.obj
        [("thumbnail", r.images.thumbnail.toJson),
          ("medium", r.images.medium.toJson),
          ("large", r.images.large.toJson)]) := by
  unfold processAndUploadImage at hok
  cases hbody : processAndUploadImageBody env cfg f options with
  | error e => rw [hbody] at hok; cases hok
  | ok r0 =>
    rw [hbody] at hok
    cases hok
    unfold processAndUploadImageBody at hbody
    cases hval : validateFile cfg (some f) with
    | error e => rw [hval] at hbody; cases hbody
    | ok u =>
      rw [hval] at hbody
      simp only [except_bind_ok] at hbody
      cases hth : resizeAndUpload env f.buffer "thumbnail" sizes.thumbnail
          (determineFolder options) (buildFilenamePrefix options) with
      | error e => rw [hth] at hbody; cases hbody
      | ok th =>
        rw [hth] at hbody
        simp only [except_bind_ok] at hbody
        cases hmd : resizeAndUpload env f.buffer "medium" sizes.medium
            (determineFolder options) (buildFilenamePrefix options) with
        | error e => rw [hmd] at hbody; cases hbody
        | ok md =>
          rw [hmd] at hbody
          simp only [except_bind_ok] at hbody
          cases hlg : resizeAndUpload env f.buffer "large" sizes.large
              (determineFolder options) (buildFilenamePrefix options) with
          | error e =>
            rw [hlg] at hbody
            simp [except_bind_error, except_map_error] at hbody
          | ok lg =>
            rw [hlg] at hbody
            simp only [except_bind_ok, except_map_ok, except_pure,
              Except.ok.injEq] at hbody
            obtain ⟨htw, hthh, htf⟩ :=
              resizeAndUpload_ok env hconf f.buffer "thumbnail"
                sizes.thumbnail (determineFolder options)
                (buildFilenamePrefix options) th hth
            obtain ⟨hmw, hmh, hmf⟩ :=
              resizeAndUpload_ok env hconf f.buffer "medium" sizes.medium
                (determineFolder options) (buildFilenamePrefix options) md hmd
            obtain ⟨hlw, hlh, hlf⟩ :=
              resizeAndUpload_ok env hconf f.buffer "large" sizes.large
                (determineFolder options) (buildFilenamePrefix options) lg hlg
            subst hbody
            refine ⟨htw, hthh, htf, hmw, hmh, hmf, hlw, hlh, hlf, rfl, rfl⟩

/-- C1 amended witness: the amended statement observed on the concrete
successful run. -/
theorem processAndUploadImage_three_variants_witness :
    demoResponse.images.thumbnail.width = 150 ∧
    demoResponse.images.thumbnail.height = 150 ∧
    demoResponse.images.thumbnail.format = "webp" ∧
    demoResponse.images.medium.width = 500 ∧
    demoResponse.images.medium.height = 500 ∧
    demoResponse.images.medium.format = "webp" ∧
    demoResponse.images.large.width = 1200 ∧
    demoResponse.images.large.height = 1200 ∧
    demoResponse.images.large.format = "webp" ∧
    demoResponse.toJson.lookup "variants" = none ∧
    demoResponse.toJson.lookup "images" =
      some (.obj
        [("thumbnail", demoResponse.images.thumbnail.toJson),
          ("medium", demoResponse.images.medium.toJson),
          ("large", demoResponse.images.large.toJson)]) :=
  processAndUploadImage_three_variants demoEnv defaultConfig demoFile {}
    demoResponse demoEnv_coverFitConformant demoFile_processes_to_demoResponse

end ImageUpload
